/-
  Verification of the 14chanykt imageboard backend (src/server.js).

  The data model and the HTTP handlers that the claims concern are embedded
  shallowly: the SQLite tables become lists of records, DATETIME values
  become natural numbers (an abstract clock passed explicitly as `now`),
  and each Express handler becomes a pure function from a database state
  (plus the request body) to a new database state and a response.
  SQL semantics are modelled faithfully: `ORDER BY ... DESC` is a sort
  with a ≥ key, `LIMIT n` is `List.take n`, an SQL `NULL` password
  compares unequal to every supplied value, and `INSERT OR IGNORE` checks
  the unique column before inserting.  JavaScript's `trim()` is modelled
  on the character list so that it evaluates inside the logic.
-/
import Mathlib

namespace Chan

/-- A row of the `boards` table. -/
structure Board where
  id : Nat
  code : String
  name : String
  description : String
deriving Repr, DecidableEq

/-- A row of the `threads` table.  `bump_time`, `created_at` are DATETIME
values modelled as abstract clock readings (`Nat`). -/
structure Thread where
  id : Nat
  board_id : Nat
  subject : Option String
  name : String
  text : String
  password : Option String
  image_url : Option String
  ip_address : String
  bump_time : Nat
  created_at : Nat
  reply_count : Nat
  is_sticky : Bool
  is_locked : Bool
deriving Repr, DecidableEq

/-- A row of the `posts` table. -/
structure Post where
  id : Nat
  thread_id : Nat
  name : String
  text : String
  password : Option String
  image_url : Option String
  ip_address : String
  created_at : Nat
deriving Repr, DecidableEq

/-- The whole SQLite database: the three tables plus the AUTOINCREMENT
counters that generate fresh primary keys. -/
structure DB where
  boards : List Board
  threads : List Thread
  posts : List Post
  nextBoardId : Nat
  nextThreadId : Nat
  nextPostId : Nat
deriving Repr, DecidableEq

/-- A handler response: either success data or an HTTP error with its
status code and message, exactly as `res.status(s).json({error: msg})`
produces it. -/
inductive Resp (α : Type) where
  | ok (data : α)
  | err (status : Nat) (msg : String)
deriving Repr, DecidableEq

/-- Whitespace characters stripped by JavaScript `trim()` (the ones
relevant here). -/
def isJsSpace (c : Char) : Bool :=
  c = ' ' ∨ c = '\t' ∨ c = '\n' ∨ c = '\r'

/-- JavaScript `String.prototype.trim()`: strip leading and trailing
whitespace, modelled on the character list. -/
def jsTrim (s : String) : String :=
  ⟨((s.data.dropWhile isJsSpace).reverse.dropWhile isJsSpace).reverse⟩

/-- JavaScript `x || null` on an optional string: `undefined`, `null` and
the empty string all collapse to `null`. -/
def jsOrNull : Option String → Option String
  | none => none
  | some s => if s = "" then none else some s

/-- JavaScript `x || dflt` on an optional string with a string default. -/
def jsOrDefault (o : Option String) (dflt : String) : String :=
  match o with
  | none => dflt
  | some s => if s = "" then dflt else s

/-- SQL equality against a possibly-NULL stored value: `password = ?`
is never true when the stored column is NULL. -/
def sqlEq (stored : Option String) (supplied : String) : Bool :=
  match stored with
  | none => false
  | some s => s = supplied

/-- `SELECT * FROM boards WHERE code = ?` (dbGet: first matching row). -/
def boardByCode (db : DB) (code : String) : Option Board :=
  db.boards.find? (fun b => b.code = code)

/-- `SELECT * FROM threads WHERE id = ?` (dbGet: first matching row). -/
def threadById (db : DB) (tid : Nat) : Option Thread :=
  db.threads.find? (fun t => t.id = tid)

/-- `ORDER BY bump_time DESC` on threads. -/
def bumpGE (a b : Thread) : Prop := b.bump_time ≤ a.bump_time

instance : DecidableRel bumpGE := fun a b => Nat.decLe b.bump_time a.bump_time

instance : IsTotal Thread bumpGE := ⟨fun a b => Nat.le_total b.bump_time a.bump_time⟩

instance : IsTrans Thread bumpGE := ⟨fun _ _ _ h1 h2 => Nat.le_trans h2 h1⟩

/-- `ORDER BY created_at DESC` on threads. -/
def createdGE (a b : Thread) : Prop := b.created_at ≤ a.created_at

instance : DecidableRel createdGE := fun a b => Nat.decLe b.created_at a.created_at

instance : IsTotal Thread createdGE := ⟨fun a b => Nat.le_total b.created_at a.created_at⟩

instance : IsTrans Thread createdGE := ⟨fun _ _ _ h1 h2 => Nat.le_trans h2 h1⟩

/-- `ORDER BY created_at` (ascending) on posts. -/
def createdLE (a b : Post) : Prop := a.created_at ≤ b.created_at

instance : DecidableRel createdLE := fun a b => Nat.decLe a.created_at b.created_at

instance : IsTotal Post createdLE := ⟨fun a b => Nat.le_total a.created_at b.created_at⟩

instance : IsTrans Post createdLE := ⟨fun _ _ _ h1 h2 => Nat.le_trans h1 h2⟩

/-- `ORDER BY id` (ascending) on boards. -/
def idLE (a b : Board) : Prop := a.id ≤ b.id

instance : DecidableRel idLE := fun a b => Nat.decLe a.id b.id

/-- GET /api/board/:code — the board plus its thread listing:
sticky threads by `created_at DESC`, then non-sticky by
`bump_time DESC LIMIT 20`. -/
def getBoard (db : DB) (code : String) : Resp (Board × List Thread) :=
  match boardByCode db code with
  | none => .err 404 "Доска не найдена"
  | some board =>
    let threads :=
      ((db.threads.filter (fun t => t.board_id = board.id ∧ t.is_sticky = false)).insertionSort
        bumpGE).take 20
    let stickyThreads :=
      (db.threads.filter (fun t => t.board_id = board.id ∧ t.is_sticky = true)).insertionSort
        createdGE
    .ok (board, stickyThreads ++ threads)

/-- GET /api/thread/:id — the thread plus its posts, `ORDER BY created_at
LIMIT 100`. -/
def getThread (db : DB) (tid : Nat) : Resp (Thread × List Post) :=
  match threadById db tid with
  | none => .err 404 "Тред не найден"
  | some thread =>
    let posts :=
      ((db.posts.filter (fun p => p.thread_id = thread.id)).insertionSort createdLE).take 100
    .ok (thread, posts)

/-- GET /api/boards — `SELECT * FROM boards ORDER BY id`. -/
def listBoards (db : DB) : List Board :=
  db.boards.insertionSort idLE

/-- Request body of POST /api/thread/create. -/
structure ThreadCreateReq where
  board : String
  subject : Option String
  name : Option String
  text : Option String
  password : Option String
  image_url : Option String
  ip : String
deriving Repr, DecidableEq

/-- POST /api/thread/create.  Validates `!text || text.trim().length < 5`,
looks the board up by code, then inserts the thread row; `bump_time` and
`created_at` both take their column default CURRENT_TIMESTAMP, which is
the single statement-time clock reading `now`.  Returns the new state and
the response (the state is unchanged on every error path). -/
def createThread (db : DB) (now : Nat) (req : ThreadCreateReq) : DB × Resp Nat :=
  match req.text with
  | none => (db, .err 400 "Текст должен содержать минимум 5 символов")
  | some text =>
    if (jsTrim text).length < 5 then
      (db, .err 400 "Текст должен содержать минимум 5 символов")
    else
      match boardByCode db req.board with
      | none => (db, .err 400 "Неверная доска")
      | some boardData =>
        let t : Thread :=
          { id := db.nextThreadId
            board_id := boardData.id
            subject := jsOrNull req.subject
            name := jsOrDefault req.name "Аноним"
            text := jsTrim text
            password := jsOrNull req.password
            image_url := jsOrNull req.image_url
            ip_address := req.ip
            bump_time := now
            created_at := now
            reply_count := 0
            is_sticky := false
            is_locked := false }
        ({ db with
            threads := db.threads ++ [t]
            nextThreadId := db.nextThreadId + 1 },
         .ok db.nextThreadId)

/-- Request body of POST /api/post/create. -/
structure PostCreateReq where
  thread_id : Nat
  name : Option String
  text : Option String
  password : Option String
  image_url : Option String
  ip : String
deriving Repr, DecidableEq

/-- POST /api/post/create.  Validates `!text || text.trim().length < 1`,
looks the thread up, rejects if `is_locked`, inserts the post row, then
runs `UPDATE threads SET bump_time = CURRENT_TIMESTAMP,
reply_count = reply_count + 1 WHERE id = ?`. -/
def createPost (db : DB) (now : Nat) (req : PostCreateReq) : DB × Resp Nat :=
  match req.text with
  | none => (db, .err 400 "Введите текст поста")
  | some text =>
    if (jsTrim text).length < 1 then
      (db, .err 400 "Введите текст поста")
    else
      match threadById db req.thread_id with
      | none => (db, .err 404 "Тред не найден")
      | some thread =>
        if thread.is_locked then
          (db, .err 400 "Тред закрыт для ответов")
        else
          let p : Post :=
            { id := db.nextPostId
              thread_id := req.thread_id
              name := jsOrDefault req.name "Аноним"
              text := jsTrim text
              password := jsOrNull req.password
              image_url := jsOrNull req.image_url
              ip_address := req.ip
              created_at := now }
          ({ db with
              posts := db.posts ++ [p]
              nextPostId := db.nextPostId + 1
              threads := db.threads.map (fun t =>
                if t.id = req.thread_id then
                  { t with bump_time := now, reply_count := t.reply_count + 1 }
                else t) },
           .ok db.nextPostId)

/-- Request body of POST /api/post/delete. -/
structure PostDeleteReq where
  post_id : Nat
  password : Option String
deriving Repr, DecidableEq

/-- POST /api/post/delete.  Rejects a falsy password (`!password`), then
`SELECT * FROM posts WHERE id = ? AND password = ?`; on a hit,
`DELETE FROM posts WHERE id = ?`; otherwise a single generic 400 that
covers both a wrong password and a missing post. -/
def deletePost (db : DB) (req : PostDeleteReq) : DB × Resp Unit :=
  match req.password with
  | none => (db, .err 400 "Введите пароль")
  | some pw =>
    if pw = "" then
      (db, .err 400 "Введите пароль")
    else
      match db.posts.find? (fun p => p.id = req.post_id ∧ sqlEq p.password pw) with
      | some _ =>
        ({ db with posts := db.posts.filter (fun p => ¬ p.id = req.post_id) },
         .ok ())
      | none => (db, .err 400 "Неверный пароль или пост не найден")

/-- The eight fixed seed boards, in source order. -/
def seedBoards : List (String × String × String) :=
  [("b", "Без темы", "Абсолютно случайный контент"),
   ("ykt", "Якутск", "Местные новости и обсуждения"),
   ("pol", "Политика", "Политические дискуссии"),
   ("a", "Аниме", "Аниме и манга"),
   ("g", "Технологии", "Компьютеры и программирование"),
   ("mu", "Музыка", "Музыка и аудио"),
   ("tv", "Телевидение", "Фильмы и сериалы"),
   ("v", "Видеоигры", "Игры и консоли")]

/-- `INSERT OR IGNORE INTO boards (code, name, description)`: the unique
constraint on `code` turns the insert into a no-op when the code is
already present. -/
def insertBoardIfAbsent (db : DB) (code nm descr : String) : DB :=
  if db.boards.any (fun b => b.code = code) then db
  else
    { db with
        boards := db.boards ++ [{ id := db.nextBoardId, code := code,
                                  name := nm, description := descr }]
        nextBoardId := db.nextBoardId + 1 }

/-- The seeding loop of `initDatabase`. -/
def runSeed (db : DB) : DB :=
  seedBoards.foldl (fun d row => insertBoardIfAbsent d row.1 row.2.1 row.2.2) db

/-- The empty database produced by the CREATE TABLE statements
(AUTOINCREMENT starts at 1). -/
def emptyDB : DB :=
  { boards := [], threads := [], posts := [], nextBoardId := 1,
    nextThreadId := 1, nextPostId := 1 }

/-- The post-creation / post-deletion mutations, as events of a history. -/
inductive Op where
  | cpost (now : Nat) (req : PostCreateReq)
  | dpost (req : PostDeleteReq)
deriving Repr, DecidableEq

/-- Apply one event to the database (the handler's state effect; error
responses leave the state unchanged by construction). -/
def applyOp (db : DB) : Op → DB
  | .cpost now req => (createPost db now req).1
  | .dpost req => (deletePost db req).1

/-- Apply a history of events in order. -/
def applyOps (db : DB) (ops : List Op) : DB :=
  ops.foldl applyOp db

/-- Whether a response is a success. -/
def Resp.isOk {α : Type} : Resp α → Bool
  | .ok _ => true
  | .err _ _ => false

/-- Number of accepted post creations targeting thread `tid` along a
history starting from `db`. -/
def acceptedCreates (db : DB) (tid : Nat) : List Op → Nat
  | [] => 0
  | op :: ops =>
    let hit :=
      match op with
      | .cpost now req => ((createPost db now req).2.isOk && req.thread_id = tid : Bool)
      | .dpost _ => false
    (if hit then 1 else 0) + acceptedCreates (applyOp db op) tid ops

/-- The `reply_count` of the (first) thread with id `tid`. -/
def replyCountOf (db : DB) (tid : Nat) : Option Nat :=
  (threadById db tid).map (fun t => t.reply_count)

/-! ### Concrete fixtures used by witnesses and counterexamples -/

/-- The database right after startup: tables created and seed run once. -/
def db1 : DB := runSeed emptyDB

/-- A concrete thread row. -/
def mkThread (i bid bump created : Nat) (sticky locked : Bool) : Thread :=
  { id := i, board_id := bid, subject := none, name := "Аноним", text := "aaaaa",
    password := none, image_url := none, ip_address := "ip", bump_time := bump,
    created_at := created, reply_count := 0, is_sticky := sticky, is_locked := locked }

/-- A concrete post row. -/
def mkPost (i tid created : Nat) (pw : Option String) : Post :=
  { id := i, thread_id := tid, name := "Аноним", text := "x", password := pw,
    image_url := none, ip_address := "ip", created_at := created }

/-- A populated database: one board, two sticky and three non-sticky
threads, three posts on thread 1. -/
def db2 : DB :=
  { boards := [{ id := 1, code := "b", name := "n", description := "d" }],
    threads := [mkThread 1 1 10 1 false false, mkThread 2 1 50 2 true false,
                mkThread 3 1 30 3 false false, mkThread 4 1 5 4 true false,
                mkThread 5 1 40 5 false false],
    posts := [mkPost 1 1 3 none, mkPost 2 1 1 (some "pw"), mkPost 3 1 2 (some "pw")],
    nextBoardId := 2, nextThreadId := 6, nextPostId := 4 }

/-- A database whose only thread (id 7) is locked. -/
def lockedDb : DB :=
  { db2 with threads := [mkThread 7 1 10 1 false true] }

/-! ### Request fixtures -/

/-- A valid thread-creation request on board `b`. -/
def helloReq : ThreadCreateReq :=
  { board := "b", subject := none, name := none, text := some "hello world",
    password := none, image_url := none, ip := "ip" }

/-- A thread-creation request with non-empty but short text. -/
def hiReq : ThreadCreateReq :=
  { board := "b", subject := none, name := none, text := some "hi",
    password := none, image_url := none, ip := "ip" }

/-- A valid thread-creation request naming an unknown board. -/
def zzReq : ThreadCreateReq :=
  { board := "zz", subject := none, name := none, text := some "hello world",
    password := none, image_url := none, ip := "ip" }

/-- A post-creation request with empty text aimed at the locked thread. -/
def lockedEmptyTextReq : PostCreateReq :=
  { thread_id := 7, name := none, text := some "", password := none,
    image_url := none, ip := "ip" }

/-- A valid post-creation request aimed at thread 1 of `db2`. -/
def replyReq : PostCreateReq :=
  { thread_id := 1, name := none, text := some "first reply", password := none,
    image_url := none, ip := "ip" }

/-! ### Inversion and state lemmas for the mutating handlers -/

/-- A successful thread creation: exactly what was validated, and the
exact row appended. -/
theorem createThread_ok_inv (db : DB) (now : Nat) (req : ThreadCreateReq)
    (db' : DB) (tid : Nat) (h : createThread db now req = (db', .ok tid)) :
    ∃ text boardData, req.text = some text ∧ 5 ≤ (jsTrim text).length ∧
      boardByCode db req.board = some boardData ∧ tid = db.nextThreadId ∧
      db' = { db with
        threads := db.threads ++
          [{ id := db.nextThreadId, board_id := boardData.id,
             subject := jsOrNull req.subject, name := jsOrDefault req.name "Аноним",
             text := jsTrim text, password := jsOrNull req.password,
             image_url := jsOrNull req.image_url, ip_address := req.ip,
             bump_time := now, created_at := now, reply_count := 0,
             is_sticky := false, is_locked := false }],
        nextThreadId := db.nextThreadId + 1 } := by
  unfold createThread at h
  split at h
  · simp at h
  next text htext =>
    split at h
    · simp at h
    next hlen =>
      split at h
      · simp at h
      next boardData hb =>
        simp only [Prod.mk.injEq, Resp.ok.injEq] at h
        exact ⟨text, boardData, htext, by omega, hb, h.2.symm, h.1.symm⟩

/-- A successful post creation: exactly what was validated, the exact row
appended, and the exact thread update applied. -/
theorem createPost_ok_inv (db : DB) (now : Nat) (req : PostCreateReq)
    (db' : DB) (pid : Nat) (h : createPost db now req = (db', .ok pid)) :
    ∃ text thread, req.text = some text ∧ 1 ≤ (jsTrim text).length ∧
      threadById db req.thread_id = some thread ∧ thread.is_locked = false ∧
      pid = db.nextPostId ∧
      db' = { db with
        posts := db.posts ++
          [{ id := db.nextPostId, thread_id := req.thread_id,
             name := jsOrDefault req.name "Аноним", text := jsTrim text,
             password := jsOrNull req.password, image_url := jsOrNull req.image_url,
             ip_address := req.ip, created_at := now }],
        nextPostId := db.nextPostId + 1,
        threads := db.threads.map (fun t =>
          if t.id = req.thread_id then
            { t with bump_time := now, reply_count := t.reply_count + 1 }
          else t) } := by
  unfold createPost at h
  split at h
  · simp at h
  next text htext =>
    split at h
    · simp at h
    next hlen =>
      split at h
      · simp at h
      next thread hth =>
        split at h
        · simp at h
        next hlock =>
          simp only [Prod.mk.injEq, Resp.ok.injEq] at h
          exact ⟨text, thread, htext, by omega, hth,
                 by simpa using hlock, h.2.symm, h.1.symm⟩

/-- An error response from `createPost` leaves the database unchanged. -/
theorem createPost_err_state (db : DB) (now : Nat) (req : PostCreateReq)
    (dbr : DB) (s : Nat) (m : String)
    (h : createPost db now req = (dbr, .err s m)) : dbr = db := by
  unfold createPost at h
  split at h
  · simp only [Prod.mk.injEq] at h; exact h.1.symm
  next text htext =>
    split at h
    · simp only [Prod.mk.injEq] at h; exact h.1.symm
    next hlen =>
      split at h
      · simp only [Prod.mk.injEq] at h; exact h.1.symm
      next thread hth =>
        split at h
        · simp only [Prod.mk.injEq] at h; exact h.1.symm
        · simp at h

/-- `deletePost` never touches the `threads` table (nor boards or the
counters). -/
theorem deletePost_threads (db : DB) (req : PostDeleteReq) :
    (deletePost db req).1.threads = db.threads := by
  unfold deletePost
  split
  · rfl
  next pw =>
    split
    · rfl
    · split <;> rfl

/-! ### C3: locked threads -/

/-- C3 (amended), helper-free statement: a post-creation request that
passes text validation and targets a locked thread fails with the
ThreadLocked error and leaves the database untouched. -/
theorem locked_thread_rejects (db : DB) (now : Nat) (req : PostCreateReq)
    (text : String) (thread : Thread)
    (htext : req.text = some text) (hlen : 1 ≤ (jsTrim text).length)
    (hth : threadById db req.thread_id = some thread)
    (hlock : thread.is_locked = true) :
    createPost db now req = (db, .err 400 "Тред закрыт для ответов") := by
  have h1 : ¬ (jsTrim text).length < 1 := by omega
  simp only [createPost.eq_def, htext, h1, hth, hlock]
  simp

/-- C3 counterexample: on a locked thread, a request with empty text is
rejected by the text validation, not with the ThreadLocked error. -/
theorem locked_thread_cex :
    threadById lockedDb 7 = some (mkThread 7 1 10 1 false true) ∧
    (mkThread 7 1 10 1 false true).is_locked = true ∧
    createPost lockedDb 20 lockedEmptyTextReq =
      (lockedDb, .err 400 "Введите текст поста") ∧
    (createPost lockedDb 20 lockedEmptyTextReq).2 ≠
      (.err 400 "Тред закрыт для ответов" : Resp Nat) := by decide

/-- C3 witness: on `lockedDb`, a valid-text request at clock 20 gets the
ThreadLocked error. -/
theorem locked_thread_rejects_witness :
    createPost lockedDb 20
        { thread_id := 7, name := none, text := some "hey", password := none,
          image_url := none, ip := "ip" } =
      (lockedDb, .err 400 "Тред закрыт для ответов") :=
  locked_thread_rejects lockedDb 20 _ "hey" (mkThread 7 1 10 1 false true)
    rfl (by decide) (by decide) (by decide)

/-! ### C5: thread text validation -/

/-- C5 (amended): thread text validation requires the text to be present
and at least 5 characters long after trimming; shorter or missing text is
rejected with the validation error; "hello world" passes and creates
thread 1 on the seeded database. -/
theorem thread_text_validation :
    (∀ (db : DB) (now : Nat) (req : ThreadCreateReq) (text : String) (b : Board),
      req.text = some text → 5 ≤ (jsTrim text).length →
      boardByCode db req.board = some b →
      (createThread db now req).2 = .ok db.nextThreadId) ∧
    (∀ (db : DB) (now : Nat) (req : ThreadCreateReq) (text : String),
      req.text = some text → (jsTrim text).length < 5 →
      createThread db now req =
        (db, .err 400 "Текст должен содержать минимум 5 символов")) ∧
    (∀ (db : DB) (now : Nat) (req : ThreadCreateReq),
      req.text = none →
      createThread db now req =
        (db, .err 400 "Текст должен содержать минимум 5 символов")) ∧
    (createThread db1 5 helloReq).2 = .ok 1 := by
  refine ⟨?_, ?_, ?_, by decide⟩
  · intro db now req text b htext hlen hb
    have h1 : ¬ (jsTrim text).length < 5 := by omega
    simp only [createThread.eq_def, htext, h1, hb]
    simp
  · intro db now req text htext hlen
    simp only [createThread.eq_def, htext, hlen]
    simp
  · intro db now req htext
    simp only [createThread.eq_def, htext]

/-- C5 counterexample: the request text "hi" is non-empty and board `b`
exists, yet validation rejects it (the real rule is a 5-character
minimum). -/
theorem thread_text_validation_cex :
    hiReq.text = some "hi" ∧ "hi" ≠ "" ∧
    boardByCode db1 hiReq.board =
      some { id := 1, code := "b", name := "Без темы",
             description := "Абсолютно случайный контент" } ∧
    createThread db1 0 hiReq =
      (db1, .err 400 "Текст должен содержать минимум 5 символов") := by decide

/-- C5 witness: instantiating the amended theorem on the seeded database
with the "hello world" request. -/
theorem thread_text_validation_witness :
    (createThread db1 5 helloReq).2 = .ok db1.nextThreadId :=
  thread_text_validation.1 db1 5 helloReq "hello world"
    { id := 1, code := "b", name := "Без темы",
      description := "Абсолютно случайный контент" }
    rfl (by decide) (by decide)

/-! ### C6: unknown board on thread creation -/

/-- C6 (amended): creating a thread for an unknown board code fails with
a 400 bad-request result ("Неверная доска") and inserts nothing, while an
unknown thread id yields the distinct 404 not-found kind. -/
theorem unknown_board_bad_request :
    (∀ (db : DB) (now : Nat) (req : ThreadCreateReq) (text : String),
      req.text = some text → 5 ≤ (jsTrim text).length →
      boardByCode db req.board = none →
      createThread db now req = (db, .err 400 "Неверная доска")) ∧
    (∀ (db : DB) (tid : Nat), threadById db tid = none →
      getThread db tid = .err 404 "Тред не найден") := by
  constructor
  · intro db now req text htext hlen hb
    have h1 : ¬ (jsTrim text).length < 5 := by omega
    simp only [createThread.eq_def, htext, h1, hb]
    simp
  · intro db tid hth
    simp only [getThread.eq_def, hth]

/-- C6 counterexample: the unknown-board failure of `createThread` is a
400 response, not the 404 not-found response used for unknown thread ids,
at the concrete seeded database. -/
theorem unknown_board_cex :
    boardByCode db1 "zz" = none ∧
    createThread db1 0 zzReq = (db1, .err 400 "Неверная доска") ∧
    getThread db1 1 = .err 404 "Тред не найден" ∧
    (createThread db1 0 zzReq).2 ≠ (.err 404 "Неверная доска" : Resp Nat) ∧
    (createThread db1 0 zzReq).2 ≠ (.err 404 "Тред не найден" : Resp Nat) := by decide

/-- C6 witness: instantiating the amended theorem at the seeded database
and the request naming board "zz". -/
theorem unknown_board_bad_request_witness :
    createThread db1 0 zzReq = (db1, .err 400 "Неверная доска") ∧
    getThread db1 1 = .err 404 "Тред не найден" :=
  ⟨unknown_board_bad_request.1 db1 0 zzReq "hello world" rfl (by decide) (by decide),
   unknown_board_bad_request.2 db1 1 (by decide)⟩

/-! ### C7: idempotent seeding -/

/-- One extra run of the seed on the already-seeded startup state is a
no-op. -/
theorem runSeed_db1 : runSeed db1 = db1 := by decide

/-- C7: running the startup seed any positive number of times yields the
same eight boards with distinct codes, and `listBoards` returns exactly
that seeded set. -/
theorem seed_idempotent (n : Nat) (h : 1 ≤ n) :
    runSeed^[n] emptyDB = db1 ∧
    db1.boards.map (fun b => b.code) = ["b", "ykt", "pol", "a", "g", "mu", "tv", "v"] ∧
    (db1.boards.map (fun b => b.code)).Nodup ∧
    listBoards db1 = db1.boards := by
  refine ⟨?_, by decide, by decide, by decide⟩
  obtain ⟨k, rfl⟩ : ∃ k, n = k + 1 := ⟨n - 1, by omega⟩
  clear h
  induction k with
  | zero => rfl
  | succ k ih =>
    rw [Function.iterate_succ_apply', ih, runSeed_db1]

/-- C7 witness: two startups in a row (seed run twice) leave exactly the
seeded set. -/
theorem seed_idempotent_witness :
    runSeed^[2] emptyDB = db1 ∧
    db1.boards.map (fun b => b.code) = ["b", "ykt", "pol", "a", "g", "mu", "tv", "v"] ∧
    (db1.boards.map (fun b => b.code)).Nodup ∧
    listBoards db1 = db1.boards :=
  seed_idempotent 2 (by omega)

/-! ### C8: bump_time equals created_at at thread creation -/

/-- C8: every successfully created thread is appended as one row whose
`bump_time` equals its `created_at` (both are the statement clock
reading `now`). -/
theorem thread_bump_eq_created (db : DB) (now : Nat) (req : ThreadCreateReq)
    (db' : DB) (tid : Nat) (h : createThread db now req = (db', .ok tid)) :
    ∃ t : Thread, db'.threads = db.threads ++ [t] ∧ t.id = tid ∧
      t.bump_time = t.created_at ∧ t.created_at = now := by
  obtain ⟨text, boardData, -, -, -, htid, hdb⟩ := createThread_ok_inv db now req db' tid h
  subst hdb
  exact ⟨_, rfl, htid.symm, rfl, rfl⟩

/-- C8 witness: creating a thread on the seeded database at clock 5
produces a row with equal timestamps. -/
theorem thread_bump_eq_created_witness :
    ∃ t : Thread, ((createThread db1 5 helloReq).1).threads = db1.threads ++ [t] ∧
      t.id = 1 ∧ t.bump_time = t.created_at ∧ t.created_at = 5 :=
  thread_bump_eq_created db1 5 helloReq (createThread db1 5 helloReq).1 1 (by decide)

/-! ### C4: wrong password is indistinguishable from missing post -/

/-- C4: deleting with a non-empty password that matches no stored password
for the requested id (wrong password), and deleting a post id that does
not exist at all, both leave the database unchanged and return the exact
same failure response. -/
theorem delete_wrong_password_indistinguishable :
    (∀ (db : DB) (req : PostDeleteReq) (pw : String),
      req.password = some pw → pw ≠ "" →
      (∀ po ∈ db.posts, po.id = req.post_id → sqlEq po.password pw = false) →
      deletePost db req = (db, .err 400 "Неверный пароль или пост не найден")) ∧
    (∀ (db : DB) (req : PostDeleteReq) (pw : String),
      req.password = some pw → pw ≠ "" →
      (∀ po ∈ db.posts, po.id ≠ req.post_id) →
      deletePost db req = (db, .err 400 "Неверный пароль или пост не найден")) := by
  have main : ∀ (db : DB) (req : PostDeleteReq) (pw : String),
      req.password = some pw → pw ≠ "" →
      (∀ po ∈ db.posts, po.id = req.post_id → sqlEq po.password pw = false) →
      deletePost db req = (db, .err 400 "Неверный пароль или пост не найден") := by
    intro db req pw hpw hne hmatch
    have hfind :
        db.posts.find? (fun p => p.id = req.post_id ∧ sqlEq p.password pw) = none := by
      rw [List.find?_eq_none]
      intro po hpo hcontra
      simp only [decide_eq_true_eq] at hcontra
      obtain ⟨h1, h2⟩ := hcontra
      rw [hmatch po hpo h1] at h2
      exact Bool.false_ne_true h2
    simp only [deletePost.eq_def, hpw, hfind]
    simp [hne]
  refine ⟨main, ?_⟩
  intro db req pw hpw hne hid
  exact main db req pw hpw hne (fun po hpo h1 => absurd h1 (hid po hpo))

/-- C4 witness: on `db2`, the wrong-password denial for post 2 and the
missing-post denial for id 99 are the same response. -/
theorem delete_wrong_password_witness :
    deletePost db2 { post_id := 2, password := some "wrong" } =
      (db2, .err 400 "Неверный пароль или пост не найден") ∧
    deletePost db2 { post_id := 99, password := some "pw" } =
      (db2, .err 400 "Неверный пароль или пост не найден") :=
  ⟨delete_wrong_password_indistinguishable.1 db2
      { post_id := 2, password := some "wrong" } "wrong" rfl (by decide) (by decide),
   delete_wrong_password_indistinguishable.2 db2
      { post_id := 99, password := some "pw" } "pw" rfl (by decide) (by decide)⟩

/-! ### C10: posts created without a password cannot be deleted -/

/-- C10: a post created with no password is stored with a NULL password,
and a post whose id carries only NULL passwords survives every
`deletePost` call (the empty-password check or the id-and-password
lookup fails, so the row is preserved). -/
theorem passwordless_post_undeletable :
    (∀ (db : DB) (now : Nat) (req : PostCreateReq) (db' : DB) (pid : Nat),
      req.password = none → createPost db now req = (db', .ok pid) →
      ∃ po : Post, db'.posts = db.posts ++ [po] ∧ po.password = none ∧ po.id = pid) ∧
    (∀ (db : DB) (po : Post), po ∈ db.posts →
      (∀ q ∈ db.posts, q.id = po.id → q.password = none) →
      ∀ req : PostDeleteReq, po ∈ (deletePost db req).1.posts) := by
  constructor
  · intro db now req db' pid hpw h
    obtain ⟨text, thread, -, -, -, -, hpid, hdb⟩ := createPost_ok_inv db now req db' pid h
    subst hdb
    exact ⟨_, rfl, by simp [hpw, jsOrNull], hpid.symm⟩
  · intro db po hpo hq req
    unfold deletePost
    split
    · exact hpo
    next pw =>
      split
      · exact hpo
      next hne =>
        split
        next q hfind =>
          have hqprop := List.find?_some hfind
          have hqmem := List.mem_of_find?_eq_some hfind
          simp only [decide_eq_true_eq] at hqprop
          obtain ⟨hqid, hqpw⟩ := hqprop
          have hponid : ¬ po.id = req.post_id := by
            intro hpoid
            have hnone := hq q hqmem (by rw [hqid, hpoid])
            rw [hnone] at hqpw
            simp [sqlEq] at hqpw
          simp only [List.mem_filter]
          exact ⟨hpo, by simp [hponid]⟩
        · exact hpo

/-- C10 witness: on `db2`, the passwordless post 1 is stored with a NULL
password and survives a deletion attempt, and a new passwordless post is
stored with a NULL password. -/
theorem passwordless_post_undeletable_witness :
    (∃ po : Post, ((createPost db2 60 replyReq).1).posts = db2.posts ++ [po] ∧
      po.password = none ∧ po.id = 4) ∧
    mkPost 1 1 3 none ∈
      ((deletePost db2 { post_id := 1, password := some "anything" }).1).posts :=
  ⟨passwordless_post_undeletable.1 db2 60 replyReq (createPost db2 60 replyReq).1 4
      rfl (by decide),
   passwordless_post_undeletable.2 db2 (mkPost 1 1 3 none) (by decide) (by decide)
      { post_id := 1, password := some "anything" }⟩

/-! ### C1: board listing shape -/

/-- C1: a board listing splits as all sticky threads of the board
(ordered by `created_at` descending, no limit) followed by at most 20
non-sticky threads of the board (ordered by `bump_time` descending, with
the limit binding exactly when more than 20 exist). -/
theorem board_listing_order (db : DB) (code : String) (b : Board) (ts : List Thread)
    (h : getBoard db code = .ok (b, ts)) :
    ∃ s n, ts = s ++ n ∧
      s.Perm (db.threads.filter (fun t => t.board_id = b.id ∧ t.is_sticky = true)) ∧
      s.Pairwise createdGE ∧
      n.length = min 20 (db.threads.filter
        (fun t => t.board_id = b.id ∧ t.is_sticky = false)).length ∧
      (∀ t ∈ n, t ∈ db.threads ∧ t.board_id = b.id ∧ t.is_sticky = false) ∧
      n.Pairwise bumpGE := by
  unfold getBoard at h
  split at h
  · simp at h
  next board hb =>
    simp only [Resp.ok.injEq, Prod.mk.injEq] at h
    obtain ⟨hbb, hts⟩ := h
    subst hbb
    refine ⟨_, _, hts.symm, List.perm_insertionSort createdGE _, ?_, ?_, ?_, ?_⟩
    · exact List.sorted_insertionSort createdGE _
    · rw [List.length_take, List.length_insertionSort]
    · intro t ht
      have h1 := List.take_subset _ _ ht
      rw [List.mem_insertionSort] at h1
      have h2 := List.mem_filter.mp h1
      have h3 := h2.2
      simp only [decide_eq_true_eq] at h3
      exact ⟨h2.1, h3.1, h3.2⟩
    · exact List.Pairwise.sublist (List.take_sublist _ _)
        (List.sorted_insertionSort bumpGE _)

/-- C1 witness: the concrete listing of board `b` in `db2`: both sticky
threads (ids 4, 2, by creation time descending) precede the three
non-sticky ones (ids 5, 3, 1, by bump time descending). -/
theorem board_listing_order_witness :
    ∃ s n,
      [mkThread 4 1 5 4 true false, mkThread 2 1 50 2 true false,
       mkThread 5 1 40 5 false false, mkThread 3 1 30 3 false false,
       mkThread 1 1 10 1 false false] = s ++ n ∧
      s.Perm (db2.threads.filter (fun t => t.board_id = 1 ∧ t.is_sticky = true)) ∧
      s.Pairwise createdGE ∧
      n.length = min 20 (db2.threads.filter
        (fun t => t.board_id = 1 ∧ t.is_sticky = false)).length ∧
      (∀ t ∈ n, t ∈ db2.threads ∧ t.board_id = 1 ∧ t.is_sticky = false) ∧
      n.Pairwise bumpGE :=
  board_listing_order db2 "b" { id := 1, code := "b", name := "n", description := "d" }
    _ (by decide)

/-! ### C9: thread view caps posts at the 100 earliest -/

/-- C9: the thread view returns the thread's posts ordered by `created_at`
ascending, at most 100 of them (exactly `min 100 count`); any post of the
thread that is omitted implies the view is full at 100 and every shown
post is no later than the omitted one. -/
theorem thread_view_posts (db : DB) (tid : Nat) (thread : Thread) (ps : List Post)
    (h : getThread db tid = .ok (thread, ps)) :
    ps.length = min 100 (db.posts.filter (fun p => p.thread_id = thread.id)).length ∧
    ps.Pairwise createdLE ∧
    (∀ p ∈ ps, p ∈ db.posts ∧ p.thread_id = thread.id) ∧
    (∀ p ∈ db.posts, p.thread_id = thread.id → p ∉ ps →
      ps.length = 100 ∧ ∀ q ∈ ps, q.created_at ≤ p.created_at) := by
  unfold getThread at h
  split at h
  · simp at h
  next th hth =>
    simp only [Resp.ok.injEq, Prod.mk.injEq] at h
    obtain ⟨hthh, hps⟩ := h
    subst hthh
    subst hps
    refine ⟨?_, ?_, ?_, ?_⟩
    · rw [List.length_take, List.length_insertionSort]
    · exact List.Pairwise.sublist (List.take_sublist _ _)
        (List.sorted_insertionSort createdLE _)
    · intro p hp
      have h1 := List.take_subset _ _ hp
      rw [List.mem_insertionSort] at h1
      have h2 := List.mem_filter.mp h1
      have h3 := h2.2
      simp only [decide_eq_true_eq] at h3
      exact ⟨h2.1, h3⟩
    · intro p hp hpt hnotin
      have hpf : p ∈ db.posts.filter (fun q => q.thread_id = th.id) :=
        List.mem_filter.mpr ⟨hp, by simpa using hpt⟩
      have hpl : p ∈ (db.posts.filter (fun q => q.thread_id = th.id)).insertionSort
          createdLE := by
        rw [List.mem_insertionSort]; exact hpf
      have hsplit :
          (db.posts.filter (fun q => q.thread_id = th.id)).insertionSort createdLE =
          ((db.posts.filter (fun q => q.thread_id = th.id)).insertionSort
            createdLE).take 100 ++
          ((db.posts.filter (fun q => q.thread_id = th.id)).insertionSort
            createdLE).drop 100 :=
        (List.take_append_drop 100 _).symm
      have hpd : p ∈ ((db.posts.filter (fun q => q.thread_id = th.id)).insertionSort
          createdLE).drop 100 := by
        rcases List.mem_append.mp (hsplit ▸ hpl) with hmem | hmem
        · exact absurd hmem hnotin
        · exact hmem
      have hlen : 100 ≤ ((db.posts.filter (fun q => q.thread_id = th.id)).insertionSort
          createdLE).length := by
        by_contra hc
        rw [List.drop_eq_nil_of_le (by omega)] at hpd
        exact absurd hpd (List.not_mem_nil p)
      have hlenf := List.length_insertionSort createdLE
        (db.posts.filter (fun q => q.thread_id = th.id))
      constructor
      · rw [List.length_take, List.length_insertionSort]
        omega
      · intro q hq
        have hpair := List.sorted_insertionSort createdLE
          (db.posts.filter (fun r => r.thread_id = th.id))
        rw [hsplit] at hpair
        exact (List.pairwise_append.mp hpair).2.2 q hq p hpd

/-- C9 witness: the thread view of thread 1 in `db2` lists its three
posts in ascending creation order. -/
theorem thread_view_posts_witness :
    [mkPost 2 1 1 (some "pw"), mkPost 3 1 2 (some "pw"), mkPost 1 1 3 none].length =
      min 100 (db2.posts.filter (fun p => p.thread_id = 1)).length ∧
    ([mkPost 2 1 1 (some "pw"), mkPost 3 1 2 (some "pw"),
      mkPost 1 1 3 none] : List Post).Pairwise createdLE ∧
    (∀ p ∈ [mkPost 2 1 1 (some "pw"), mkPost 3 1 2 (some "pw"), mkPost 1 1 3 none],
      p ∈ db2.posts ∧ p.thread_id = 1) ∧
    (∀ p ∈ db2.posts, p.thread_id = 1 →
      p ∉ [mkPost 2 1 1 (some "pw"), mkPost 3 1 2 (some "pw"), mkPost 1 1 3 none] →
      ([mkPost 2 1 1 (some "pw"), mkPost 3 1 2 (some "pw"),
        mkPost 1 1 3 none] : List Post).length = 100 ∧
      ∀ q ∈ [mkPost 2 1 1 (some "pw"), mkPost 3 1 2 (some "pw"), mkPost 1 1 3 none],
        q.created_at ≤ p.created_at) :=
  thread_view_posts db2 1 (mkThread 1 1 10 1 false false) _ (by decide)

/-! ### C2: reply_count and bump_time mutation discipline -/

/-- `find?` by id commutes with a map that preserves ids. -/
theorem find?_id_map (l : List Thread) (f : Thread → Thread)
    (hf : ∀ t, (f t).id = t.id) (tid : Nat) :
    (l.map f).find? (fun t => t.id = tid) =
      (l.find? (fun t => t.id = tid)).map f := by
  induction l with
  | nil => rfl
  | cons a l ih =>
    by_cases ha : a.id = tid
    · rw [List.map_cons, List.find?_cons_of_pos _ (by simpa [hf a] using ha),
        List.find?_cons_of_pos _ (by simpa using ha)]
      rfl
    · rw [List.map_cons, List.find?_cons_of_neg _ (by simpa [hf a] using ha),
        List.find?_cons_of_neg _ (by simpa using ha), ih]

/-- After a successful post creation, a thread lookup returns the same
row, with the bump/reply update applied exactly when it is the target. -/
theorem createPost_ok_threadById (db : DB) (now : Nat) (req : PostCreateReq)
    (db' : DB) (pid : Nat) (h : createPost db now req = (db', .ok pid))
    (tid : Nat) (t : Thread) (ht : threadById db tid = some t) :
    threadById db' tid =
      some (if t.id = req.thread_id then
        { t with bump_time := now, reply_count := t.reply_count + 1 } else t) := by
  obtain ⟨text, thread, -, -, -, -, -, hdb⟩ := createPost_ok_inv db now req db' pid h
  subst hdb
  unfold threadById at ht ⊢
  dsimp only
  rw [find?_id_map _ _ ?hf tid, ht]
  case hf =>
    intro x
    by_cases hx : x.id = req.thread_id <;> simp [hx]
  rfl

/-- C2: an accepted post creation bumps its target thread exactly once
(`reply_count` + 1, `bump_time` := now); post deletion never touches the
threads table; and along any history of post creations and deletions the
reply count of a thread equals its starting value plus the number of
accepted creations that targeted it — deletions never decrement. -/
theorem reply_count_bump_invariant :
    (∀ (db : DB) (now : Nat) (req : PostCreateReq) (db' : DB) (pid : Nat) (t : Thread),
      createPost db now req = (db', .ok pid) →
      threadById db req.thread_id = some t →
      threadById db' req.thread_id =
        some { t with bump_time := now, reply_count := t.reply_count + 1 }) ∧
    (∀ (db : DB) (req : PostDeleteReq), (deletePost db req).1.threads = db.threads) ∧
    (∀ (db : DB) (tid : Nat) (c : Nat) (ops : List Op),
      replyCountOf db tid = some c →
      replyCountOf (applyOps db ops) tid = some (c + acceptedCreates db tid ops)) := by
  refine ⟨?_, deletePost_threads, ?_⟩
  · intro db now req db' pid t h ht
    have hlook := createPost_ok_threadById db now req db' pid h req.thread_id t ht
    have htid : t.id = req.thread_id := by simpa using List.find?_some ht
    rw [if_pos htid] at hlook
    exact hlook
  · intro db tid c ops h
    induction ops generalizing db c with
    | nil => simpa [applyOps, acceptedCreates] using h
    | cons op ops ih =>
      have hstep : applyOps db (op :: ops) = applyOps (applyOp db op) ops := rfl
      rw [hstep]
      cases op with
      | dpost req =>
        have h' : replyCountOf (applyOp db (Op.dpost req)) tid = some c := by
          unfold replyCountOf threadById at h ⊢
          have : applyOp db (Op.dpost req) = (deletePost db req).1 := rfl
          rw [this, deletePost_threads db req]
          exact h
        have hacc : acceptedCreates db tid (Op.dpost req :: ops) =
            acceptedCreates (applyOp db (Op.dpost req)) tid ops := by
          simp [acceptedCreates]
        rw [hacc]
        exact ih _ _ h'
      | cpost pnow req =>
        rcases hres : createPost db pnow req with ⟨dbr, r⟩
        have happ : applyOp db (Op.cpost pnow req) = dbr := by
          simp [applyOp, hres]
        cases r with
        | err s m =>
          have hdbr : dbr = db := createPost_err_state db pnow req dbr s m hres
          have hacc : acceptedCreates db tid (Op.cpost pnow req :: ops) =
              acceptedCreates (applyOp db (Op.cpost pnow req)) tid ops := by
            simp [acceptedCreates, hres, Resp.isOk]
          rw [hacc, happ, hdbr]
          exact ih db c h
        | ok pid =>
          obtain ⟨t, ht, hc⟩ : ∃ t, threadById db tid = some t ∧ t.reply_count = c := by
            unfold replyCountOf at h
            cases hth : threadById db tid with
            | none => rw [hth] at h; simp at h
            | some t => rw [hth] at h; simp at h; exact ⟨t, rfl, h⟩
          have htid : t.id = tid := by simpa using List.find?_some ht
          have hlook := createPost_ok_threadById db pnow req dbr pid hres tid t ht
          by_cases hid : req.thread_id = tid
          · rw [if_pos (by omega)] at hlook
            have h' : replyCountOf dbr tid = some (c + 1) := by
              unfold replyCountOf
              rw [hlook]
              simp [hc]
            have hacc : acceptedCreates db tid (Op.cpost pnow req :: ops) =
                1 + acceptedCreates (applyOp db (Op.cpost pnow req)) tid ops := by
              simp [acceptedCreates, hres, Resp.isOk, hid]
            rw [hacc, happ]
            rw [ih dbr (c + 1) h']
            congr 1
            omega
          · rw [if_neg (by omega)] at hlook
            have h' : replyCountOf dbr tid = some c := by
              unfold replyCountOf
              rw [hlook]
              simp [hc]
            have hacc : acceptedCreates db tid (Op.cpost pnow req :: ops) =
                acceptedCreates (applyOp db (Op.cpost pnow req)) tid ops := by
              simp [acceptedCreates, hres, Resp.isOk, hid]
            rw [hacc, happ]
            exact ih dbr c h'

/-- C2 witness: on `db2`, the accepted reply to thread 1 at clock 60 bumps
it and increments its count; deletion leaves threads untouched; over the
concrete history (accepted creation then a deletion) the count of
thread 1 equals 0 plus the one accepted creation. -/
theorem reply_count_bump_invariant_witness :
    threadById (createPost db2 60 replyReq).1 1 =
      some { mkThread 1 1 10 1 false false with bump_time := 60, reply_count := 1 } ∧
    (deletePost db2 { post_id := 1, password := some "pw" }).1.threads = db2.threads ∧
    replyCountOf (applyOps db2 [Op.cpost 60 replyReq,
        Op.dpost { post_id := 2, password := some "pw" }]) 1 =
      some (0 + acceptedCreates db2 1 [Op.cpost 60 replyReq,
        Op.dpost { post_id := 2, password := some "pw" }]) :=
  ⟨reply_count_bump_invariant.1 db2 60 replyReq (createPost db2 60 replyReq).1 4
      (mkThread 1 1 10 1 false false) (by decide) (by decide),
   reply_count_bump_invariant.2.1 db2 { post_id := 1, password := some "pw" },
   reply_count_bump_invariant.2.2 db2 1 0 [Op.cpost 60 replyReq,
      Op.dpost { post_id := 2, password := some "pw" }] (by decide)⟩

end Chan
